import Mathlib

/-!
Verification development for the FAR age-regression training harness
(ageDB_scratch.py). The file shallowly embeds the parts of the script that
the specification talks about: option parsing and derived artifact names,
loss selection in set_model and the per-batch loss dispatch in train,
checkpoint schemas, resume handling, the validate metric routine, and the
best-validation tracking of the main training loop. Tensors, autodiff and
the data pipeline are external framework collaborators and are abstracted:
a model is a function from images to (output, feature), metric inputs are
lists of rationals, and the per-epoch validation/test results of the run
are abstracted as sequences indexed by the epoch number.
-/

/-- Mirrors the option record built by parse_option (ageDB_scratch.py lines
16 to 40): every command line option with its parsed type. Numeric float
options are modelled as rationals. -/
structure Opt where
  print_freq : Nat
  save_freq : Nat
  save_curr_freq : Nat
  batch_size : Nat
  num_workers : Nat
  epochs : Nat
  learning_rate : ℚ
  lr_decay_rate : ℚ
  weight_decay : ℚ
  momentum : ℚ
  alpha : ℚ
  trial : String
  loss : String
  data_folder : String
  dataset : String
  model : String
  resume : String
  aug : String
deriving Repr, DecidableEq

/-- Rendering of a numeric option into the run name. The exact textual float
representation is delegated (Python str of a float); only its functional
dependence on the value matters for the claims. -/
def fq (q : ℚ) : String := toString q

/-- Mirrors the model_name format string of parse_option (lines 43 to 45):
loss, dataset, model, epochs, learning rate, decay rate, weight decay,
alpha, momentum, batch size, augmentations, trial, joined in that order. -/
def derived_model_name (o : Opt) : String :=
  o.loss ++ ("_") ++ o.dataset ++ ("_") ++ o.model
    ++ ("_ep_") ++ toString o.epochs
    ++ ("_lr_") ++ fq o.learning_rate
    ++ ("_d_") ++ fq o.lr_decay_rate
    ++ ("_wd_") ++ fq o.weight_decay
    ++ ("_alpha_") ++ fq o.alpha
    ++ ("_mmt_") ++ fq o.momentum
    ++ ("_bsz_") ++ toString o.batch_size
    ++ ("_aug_") ++ o.aug
    ++ ("_trial_") ++ o.trial

/-- Python negative indexing xs[-2]: defined when the list has at least two
elements, an IndexError (none) otherwise. -/
def neg_index_2 (l : List String) : Option String :=
  if h : 2 ≤ l.length then some (l.get ⟨l.length - 2, by omega⟩) else none

/-- Mirrors lines 43 to 47: the derived run name, overridden by the second
to last path component of the resume path when a resume path is given. -/
def model_name (o : Opt) : Option String :=
  if o.resume.length ≠ 0 then neg_index_2 (o.resume.splitOn ("/"))
  else some (derived_model_name o)

/-- Mirrors line 42: the dataset-keyed save root. -/
def model_path (o : Opt) : String := ("./save/") ++ o.dataset ++ ("_models")

/-- Mirrors line 49: save_folder is the join of model_path and model_name. -/
def save_folder (o : Opt) : Option String :=
  (model_name o).map (fun n => model_path o ++ ("/") ++ n)

/-- The criterion object selected by set_model (lines 102 to 107): either
the FAR module built from alpha and the loss string as version, or the
default torch.nn.L1Loss. -/
inductive Criterion where
  | farCrit (alpha : ℚ) (version : String)
  | l1Crit
deriving Repr, DecidableEq

/-- Mirrors set_model lines 104 to 107: FAR is selected exactly for the
loss names FAR and FAR-EXP, anything else gets L1Loss. -/
def set_model_criterion (o : Opt) : Criterion :=
  if o.loss = ("FAR") ∨ o.loss = ("FAR-EXP") then Criterion.farCrit o.alpha o.loss
  else Criterion.l1Crit

/-- Tensor arguments available inside the train loop body: the model output,
the label batch, and the intermediate feature representation feat. -/
inductive TArg where
  | output
  | labels
  | feat
deriving Repr, DecidableEq

/-- Symbolic form of the loss value built in train (lines 137 to 147):
which callable is applied to which tensor arguments, with extra scalar
parameters recorded separately. -/
inductive LossExpr where
  | critApp (c : Criterion) (args : List TArg)
  | lossFn (name : String) (args : List TArg) (params : List ℚ)
  | add (a b : LossExpr)
  | smul (c : ℚ) (e : LossExpr)
deriving Repr, DecidableEq

/-- Mirrors the dispatch in train, lines 138 to 147. Every branch that calls
the criterion object calls it on exactly (output, labels); the feature
tensor feat only ever reaches the free functions ConR and
batchwise_ranking_regularizer. -/
def train_loss_expr (o : Opt) (crit : Criterion) : LossExpr :=
  if o.loss = ("ConR") then
    LossExpr.add (LossExpr.critApp crit [TArg.output, TArg.labels])
      (LossExpr.smul o.alpha (LossExpr.lossFn ("ConR") [TArg.feat, TArg.labels, TArg.output] []))
  else if o.loss = ("ranksim") then
    LossExpr.add (LossExpr.critApp crit [TArg.output, TArg.labels])
      (LossExpr.lossFn ("batchwise_ranking_regularizer") [TArg.feat, TArg.labels] [o.alpha])
  else if o.loss = ("focal-l1") then
    LossExpr.lossFn ("weighted_focal_l1_loss") [TArg.output, TArg.labels] [o.alpha]
  else if o.loss = ("focal-mse") then
    LossExpr.lossFn ("weighted_focal_mse_loss") [TArg.output, TArg.labels] [o.alpha]
  else
    LossExpr.critApp crit [TArg.output, TArg.labels]

/-- The per-batch training loss of a run: the dispatch of train applied to
the criterion chosen by set_model. -/
def train_loss (o : Opt) : LossExpr := train_loss_expr o (set_model_criterion o)

/-- Arithmetic mean of a list of rationals. -/
def qmean (l : List ℚ) : ℚ := l.sum / (l.length : ℚ)

/-- Semantics of torch.nn.L1Loss with default mean reduction: the mean of
the elementwise absolute differences. -/
def l1_loss (output labels : List ℚ) : ℚ :=
  qmean (List.zipWith (fun a b => |a - b|) output labels)

/-- Value of a tensor argument in a concrete batch context. -/
def targVal (output labels feat : List ℚ) : TArg → List ℚ
  | TArg.output => output
  | TArg.labels => labels
  | TArg.feat => feat

/-- Numeric value of a loss expression on a concrete batch. Only the
default L1 criterion has its semantics in the torch API contract; FAR,
ConR, batchwise_ranking_regularizer and the focal losses live in loss.py,
which is not part of the sources here, so their values stay unevaluated. -/
def evalLossExpr (output labels feat : List ℚ) : LossExpr → Option ℚ
  | LossExpr.critApp Criterion.l1Crit [a, b] =>
      some (l1_loss (targVal output labels feat a) (targVal output labels feat b))
  | _ => none

/-- Keys that a persisted checkpoint object can carry. -/
inductive CkptKey where
  | epoch
  | model
  | optimizer
  | best_error
deriving Repr, DecidableEq

/-- Mirrors the torch.save call at lines 247 to 251: the best checkpoint
stores exactly epoch, model parameters and best_error. -/
def best_ckpt_keys : List CkptKey :=
  [CkptKey.epoch, CkptKey.model, CkptKey.best_error]

/-- Modelled from the spec: the periodic save goes through save_model from
utils.py, which is not among the sources here; per the spec the persisted
object for periodic saves is the record with epoch, model parameters,
optimizer state and best_error. -/
def periodic_ckpt_keys : List CkptKey :=
  [CkptKey.epoch, CkptKey.model, CkptKey.optimizer, CkptKey.best_error]

/-- Which of the two checkpoint paths a save event belongs to. -/
inductive SaveKind where
  | periodic
  | best
deriving Repr, DecidableEq

/-- One checkpoint write: its kind, target path and persisted keys. -/
structure SaveEvent where
  kind : SaveKind
  path : String
  keys : List CkptKey
deriving Repr, DecidableEq

/-- Mirrors the checkpoint writes of one loop iteration of main (lines 235
to 251): a periodic save when the epoch is a multiple of save_freq, then a
best save when the epoch improved the best validation error. -/
def epoch_end_saves (o : Opt) (folder : String) (epoch : Nat) (is_best : Bool) : List SaveEvent :=
  (if epoch % o.save_freq = 0 then
      [{ kind := SaveKind.periodic,
         path := folder ++ ("/ckpt_epoch_") ++ toString epoch ++ (".pth"),
         keys := periodic_ckpt_keys }]
    else [])
  ++ (if is_best then
      [{ kind := SaveKind.best,
         path := folder ++ ("/best.pth"),
         keys := best_ckpt_keys }]
    else [])

/-- Value stored under a checkpoint key: an integer epoch or an opaque
state dictionary. -/
inductive CkptVal where
  | num (n : Nat)
  | state (tag : String)
deriving Repr, DecidableEq

/-- A loaded checkpoint object: a string-keyed dictionary. -/
abbrev Ckpt := List (String × CkptVal)

/-- Python dictionary access ckpt[k], as an optional lookup. -/
def lookupKey (ck : Ckpt) (k : String) : Option CkptVal :=
  (ck.find? (fun p => p.1 == k)).map Prod.snd

/-- Result of the resume block: the first epoch the loop will run and the
states handed to model.load_state_dict and optimizer.load_state_dict. -/
structure ResumeState where
  start_epoch : Nat
  loaded_model : Option CkptVal
  loaded_optimizer : Option CkptVal
deriving Repr, DecidableEq

/-- Mirrors main lines 205 to 211: with an empty resume path training starts
at epoch 1 and nothing is loaded; otherwise the checkpoint is deserialized
(none models a failed torch.load), the model and optimizer keys are read,
and start_epoch becomes the stored epoch plus one. Every missing key and a
non-numeric epoch raise, which the embedding reports as an error. -/
def resume_setup (resume : String) (loaded : Option Ckpt) : Except String ResumeState :=
  if resume.length = 0 then
    Except.ok { start_epoch := 1, loaded_model := none, loaded_optimizer := none }
  else
    match loaded with
    | none => Except.error ("torch.load failed: malformed checkpoint")
    | some ck =>
      match lookupKey ck ("model") with
      | none => Except.error ("KeyError: model")
      | some m =>
        match lookupKey ck ("optimizer") with
        | none => Except.error ("KeyError: optimizer")
        | some op =>
          match lookupKey ck ("epoch") with
          | none => Except.error ("KeyError: epoch")
          | some (CkptVal.state _) => Except.error ("TypeError: epoch is not a number")
          | some (CkptVal.num e) =>
            Except.ok { start_epoch := e + 1, loaded_model := some m, loaded_optimizer := some op }

/-- An uncaught exception terminates the run. -/
def isFatal : Except String ResumeState → Bool
  | Except.error _ => true
  | Except.ok _ => false

/-- Mirrors the loop header range(start_epoch, opt.epochs + 1) of line 218:
the list of epoch numbers the loop body runs for. -/
def executed_epochs (start_epoch epochs : Nat) : List Nat :=
  List.range' start_epoch (epochs + 1 - start_epoch)

/-- Mirrors line 214: best_test starts as five copies of the 1e10 sentinel. -/
def init_best_test : List ℚ := [10 ^ 10, 10 ^ 10, 10 ^ 10, 10 ^ 10, 10 ^ 10]

/-- The mutable per-run tracking state of the loop in main: the running best
validation error, the snapshotted best test metrics, and the log of best
checkpoint writes as (epoch, path) pairs. -/
structure LoopState where
  best_error : ℚ
  best_test : List ℚ
  best_saves : List (Nat × String)
deriving Repr, DecidableEq

/-- Mirrors lines 213 to 215: best_error starts at 1e10, best_test at the
sentinel vector, and no best checkpoint has been written. -/
def init_loop_state : LoopState :=
  { best_error := 10 ^ 10, best_test := init_best_test, best_saves := [] }

/-- Mirrors one iteration of the loop body of main restricted to the best
tracking (lines 228, 229, 245 to 251): is_best is a strict comparison of
the validation MAE against best_error, best_error becomes the minimum, and
only an improving epoch snapshots best_test and writes save_file_best. -/
def epoch_step (valid_mae : ℚ) (test_error : List ℚ) (folder : String) (epoch : Nat)
    (st : LoopState) : LoopState :=
  if valid_mae < st.best_error then
    { best_error := min valid_mae st.best_error,
      best_test := test_error,
      best_saves := st.best_saves ++ [(epoch, folder ++ ("/best.pth"))] }
  else
    { best_error := min valid_mae st.best_error,
      best_test := st.best_test,
      best_saves := st.best_saves }

/-- The loop state after running epochs 1 up to n. The per-epoch validation
MAE and test metric vector are abstracted as sequences indexed by epoch,
since they depend on framework-side training state outside the sources. -/
def run_epochs (valid : Nat → ℚ) (test : Nat → List ℚ) (folder : String) : Nat → LoopState
  | 0 => init_loop_state
  | n + 1 => epoch_step (valid (n + 1)) (test (n + 1)) folder (n + 1)
      (run_epochs valid test folder n)

/-- The running best validation error after k epochs: the minimum of the
1e10 baseline and the validation MAE values of epochs 1 up to k. -/
def bestErrorAfter (valid : Nat → ℚ) : Nat → ℚ
  | 0 => 10 ^ 10
  | k + 1 => min (valid (k + 1)) (bestErrorAfter valid k)

/-- The most recent epoch in 1 up to k whose validation MAE strictly
improved the running best, if any. -/
def lastImprovingUpTo (valid : Nat → ℚ) : Nat → Option Nat
  | 0 => none
  | k + 1 =>
    if valid (k + 1) < bestErrorAfter valid k then some (k + 1)
    else lastImprovingUpTo valid k

/-- All checkpoint writes of a run of n epochs, periodic and best combined,
in program order. -/
def run_all_saves (o : Opt) (folder : String) (valid : Nat → ℚ) : Nat → List SaveEvent
  | 0 => []
  | n + 1 => run_all_saves o folder valid n
      ++ epoch_end_saves o folder (n + 1) (decide (valid (n + 1) < bestErrorAfter valid n))

/-- The observable outcome of a run that the embedded slice of main
determines: the derived names, every checkpoint write, and the final
tracking state. -/
structure ProgramRun where
  name : Option String
  folder : Option String
  saves : List SaveEvent
  final : LoopState

/-- One run of main after option parsing, on abstracted metric sequences. -/
def program_run (o : Opt) (valid : Nat → ℚ) (test : Nat → List ℚ) : ProgramRun :=
  { name := model_name o,
    folder := save_folder o,
    saves := run_all_saves o ((save_folder o).getD ("")) valid o.epochs,
    final := run_epochs valid test ((save_folder o).getD ("")) o.epochs }

/-- Numerator-style covariance sum of np.corrcoef: the sum of products of
deviations from the means. -/
def covSum (xs ys : List ℚ) : ℚ :=
  ((xs.zip ys).map (fun p => (p.1 - qmean xs) * (p.2 - qmean ys))).sum

/-- Sum of squared deviations from the mean. -/
def sqDevSum (xs : List ℚ) : ℚ :=
  (xs.map (fun x => (x - qmean xs) ^ 2)).sum

/-- Pearson correlation, the off-diagonal entry of the two-by-two
np.corrcoef matrix: covariance over the product of standard deviations;
the shared normalization of covariance and variances cancels. -/
noncomputable def pearson (xs ys : List ℚ) : ℝ :=
  ((covSum xs ys : ℚ) : ℝ) / Real.sqrt (((sqDevSum xs : ℚ) : ℝ) * ((sqDevSum ys : ℚ) : ℝ))

/-- Average rank of a value inside a list, as scipy rankdata assigns it:
one plus the number of strictly smaller entries, plus half of the
remaining tied entries. -/
def avgRank (l : List ℚ) (x : ℚ) : ℚ :=
  (l.countP (fun y => decide (y < x)) : ℚ) + ((l.countP (fun y => decide (y = x)) : ℚ) + 1) / 2

/-- The rank vector of a list. -/
def ranks (l : List ℚ) : List ℚ := l.map (avgRank l)

/-- Spearman correlation as scipy.stats.spearmanr computes it: the Pearson
correlation of the two rank vectors. -/
noncomputable def spearman (xs ys : List ℚ) : ℝ := pearson (ranks xs) (ranks ys)

/-- Coefficient of determination as sklearn r2_score computes it: one minus
the residual sum of squares over the total sum of squares of the truth. -/
def r2_scoreq (truth pred : List ℚ) : ℚ :=
  1 - ((truth.zip pred).map (fun p => (p.1 - p.2) ^ 2)).sum / sqDevSum truth

/-- Per-batch model outputs over a loader, mirroring the append loop of
validate (lines 172 to 182): one output list per batch. A model maps an
image to its scalar output and an intermediate feature. -/
def predBatches {Img F : Type} (model : Img → ℚ × F) (loader : List (List (Img × ℚ))) :
    List (List ℚ) :=
  loader.map (fun b => b.map (fun s => (model s.1).1))

/-- Per-batch ground truth labels over a loader. -/
def truthBatches {Img : Type} (loader : List (List (Img × ℚ))) : List (List ℚ) :=
  loader.map (fun b => b.map Prod.snd)

/-- Mirrors validate (lines 169 to 190): concatenate the per-batch outputs
and labels, then return the five statistics in the fixed order MAE, RMSE,
Pearson, Spearman, R2. The routine is a pure function of the model and the
loader content; eval mode and no_grad are framework-side toggles. -/
noncomputable def validate {Img F : Type} (model : Img → ℚ × F)
    (loader : List (List (Img × ℚ))) : List ℝ :=
  [ ((qmean ((((predBatches model loader).flatten).zip ((truthBatches loader).flatten)).map
        (fun p => |p.1 - p.2|)) : ℚ) : ℝ),
    Real.sqrt ((qmean ((((predBatches model loader).flatten).zip ((truthBatches loader).flatten)).map
        (fun p => (p.1 - p.2) ^ 2)) : ℚ) : ℝ),
    pearson ((truthBatches loader).flatten) ((predBatches model loader).flatten),
    spearman ((truthBatches loader).flatten) ((predBatches model loader).flatten),
    ((r2_scoreq ((truthBatches loader).flatten) ((predBatches model loader).flatten) : ℚ) : ℝ) ]

/-- The concatenated split as (output, label) sample pairs. -/
def pairsOf {Img F : Type} (model : Img → ℚ × F) (loader : List (List (Img × ℚ))) :
    List (ℚ × ℚ) :=
  (loader.map (fun b => b.map (fun s => ((model s.1).1, s.2)))).flatten

/-- The five validate statistics as a function of the sample pair list. -/
noncomputable def statsOfPairs (P : List (ℚ × ℚ)) : List ℝ :=
  [ ((qmean (P.map (fun p => |p.1 - p.2|)) : ℚ) : ℝ),
    Real.sqrt ((qmean (P.map (fun p => (p.1 - p.2) ^ 2)) : ℚ) : ℝ),
    pearson (P.map Prod.snd) (P.map Prod.fst),
    spearman (P.map Prod.snd) (P.map Prod.fst),
    ((r2_scoreq (P.map Prod.snd) (P.map Prod.fst) : ℚ) : ℝ) ]

/-- The documented default configuration of parse_option. -/
def defaultOpt : Opt :=
  { print_freq := 10, save_freq := 100, save_curr_freq := 1, batch_size := 256,
    num_workers := 1, epochs := 400, learning_rate := 1/5, lr_decay_rate := 1/10,
    weight_decay := 1/10000, momentum := 9/10, alpha := 1,
    trial := ("0"), loss := ("FAR"), data_folder := ("../Rank-N-Contrast/data"),
    dataset := ("AgeDB"), model := ("resnet18"), resume := (""),
    aug := ("crop,flip,color,grayscale") }

/-- The default configuration: its loss kind is FAR. -/
def farOpt : Opt := defaultOpt

/-- A configuration with a loss name outside the recognized set. -/
def mseOpt : Opt := { defaultOpt with loss := ("mse") }

/-- Two configurations agreeing on every name-determining field. -/
def w9a : Opt := defaultOpt

/-- Same as w9a except for the name-irrelevant print frequency. -/
def w9b : Opt := { defaultOpt with print_freq := 3 }

/-- A configuration with a small periodic save frequency. -/
def wSaveOpt : Opt := { defaultOpt with save_freq := 2 }

/-- The periodic checkpoint event of epoch 2 under folder f. -/
def wPeriodicEv : SaveEvent :=
  { kind := SaveKind.periodic, path := ("f/ckpt_epoch_2.pth"), keys := periodic_ckpt_keys }

/-- A well-formed resume checkpoint storing epoch 10. -/
def wCkpt : Ckpt :=
  [(("model"), CkptVal.state ("M")), (("optimizer"), CkptVal.state ("O")),
   (("epoch"), CkptVal.num 10)]

/-- The validation MAE sequence 5, 3, 4, 2 of the spec example. -/
def exValid : Nat → ℚ := fun e =>
  if e = 1 then 5 else if e = 2 then 3 else if e = 3 then 4 else if e = 4 then 2 else 0

/-- A concrete test metric sequence distinguishing epochs. -/
def exTest : Nat → List ℚ := fun e => [(e : ℚ)]

/-- A one-sample batch for the validate witnesses. -/
def wB1 : List (Nat × ℚ) := [(0, 1)]

/-- A second one-sample batch for the validate witnesses. -/
def wB2 : List (Nat × ℚ) := [(1, 3)]

/-- A concrete model: the output is the image index, the feature is unit. -/
def wModel : Nat → ℚ × Unit := fun i => ((i : ℚ), ())

/-- C2 (counterexample): under the default configuration, whose loss kind is
FAR, the per-batch training loss built in train is the criterion applied to
(output, labels); it is not the criterion applied to (output, labels, feat),
so the stated loss(output, label, feature) invocation contract fails on the
code: line 147 calls criterion(output, labels) and never passes feat. -/
theorem C2_counterexample :
    train_loss farOpt =
      LossExpr.critApp (Criterion.farCrit 1 ("FAR")) [TArg.output, TArg.labels] ∧
    train_loss farOpt ≠
      LossExpr.critApp (Criterion.farCrit 1 ("FAR")) [TArg.output, TArg.labels, TArg.feat] := by
  constructor
  · rfl
  · decide

/-- C2 (amended): when the configured loss kind is FAR or FAR-EXP, the
criterion is the FAR module built from alpha and the loss name as version,
and on every training batch the loss is computed by invoking the criterion
on exactly (output, labels); the intermediate feature representation is
computed by the forward pass but is not an argument of the loss call. -/
theorem C2_far_loss_invocation (o : Opt) (h : o.loss = ("FAR") ∨ o.loss = ("FAR-EXP")) :
    set_model_criterion o = Criterion.farCrit o.alpha o.loss ∧
    train_loss o =
      LossExpr.critApp (Criterion.farCrit o.alpha o.loss) [TArg.output, TArg.labels] := by
  have hc : set_model_criterion o = Criterion.farCrit o.alpha o.loss := by
    unfold set_model_criterion
    rw [if_pos h]
  have h1 : ¬ o.loss = ("ConR") := by rcases h with h | h <;> rw [h] <;> decide
  have h2 : ¬ o.loss = ("ranksim") := by rcases h with h | h <;> rw [h] <;> decide
  have h3 : ¬ o.loss = ("focal-l1") := by rcases h with h | h <;> rw [h] <;> decide
  have h4 : ¬ o.loss = ("focal-mse") := by rcases h with h | h <;> rw [h] <;> decide
  refine ⟨hc, ?_⟩
  unfold train_loss train_loss_expr
  rw [hc, if_neg h1, if_neg h2, if_neg h3, if_neg h4]

/-- Witness for C2: the amended statement applied to the default FAR run. -/
theorem C2_far_loss_invocation_witness :
    set_model_criterion farOpt = Criterion.farCrit 1 ("FAR") ∧
    train_loss farOpt =
      LossExpr.critApp (Criterion.farCrit 1 ("FAR")) [TArg.output, TArg.labels] :=
  C2_far_loss_invocation farOpt (Or.inl rfl)

/-- C3: any configured loss name outside the six recognized ones makes
set_model silently select the default L1 criterion, the train dispatch
falls through to its final branch, and the per-batch training loss
evaluates to the elementwise L1 loss of (output, labels). -/
theorem C3_unknown_loss_falls_through (o : Opt) (output labels feat : List ℚ)
    (h : o.loss ∉ (["FAR", "FAR-EXP", "ConR", "ranksim", "focal-l1", "focal-mse"] : List String)) :
    set_model_criterion o = Criterion.l1Crit ∧
    train_loss o = LossExpr.critApp Criterion.l1Crit [TArg.output, TArg.labels] ∧
    evalLossExpr output labels feat (train_loss o) = some (l1_loss output labels) := by
  simp only [List.mem_cons, List.not_mem_nil, or_false, not_or] at h
  obtain ⟨h1, h2, h3, h4, h5, h6⟩ := h
  have hc : set_model_criterion o = Criterion.l1Crit := by
    unfold set_model_criterion
    rw [if_neg]
    rintro (hf | hf)
    · exact h1 hf
    · exact h2 hf
  have ht : train_loss o = LossExpr.critApp Criterion.l1Crit [TArg.output, TArg.labels] := by
    unfold train_loss train_loss_expr
    rw [hc, if_neg h3, if_neg h4, if_neg h5, if_neg h6]
  exact ⟨hc, ht, by rw [ht]; rfl⟩

/-- Witness for C3: a run configured with the unrecognized loss name mse. -/
theorem C3_unknown_loss_falls_through_witness :
    set_model_criterion mseOpt = Criterion.l1Crit ∧
    train_loss mseOpt = LossExpr.critApp Criterion.l1Crit [TArg.output, TArg.labels] ∧
    evalLossExpr [1, 2] [0, 4] [] (train_loss mseOpt) = some (l1_loss [1, 2] [0, 4]) :=
  C3_unknown_loss_falls_through mseOpt [1, 2] [0, 4] [] (by decide)

/-- C9: the derived model_name and save_folder are deterministic functions
of the configuration fields the claim lists (loss, dataset, model, epochs,
learning rate, decay rate, weight decay, alpha, momentum, batch size,
augmentation list, trial, resume path); two parses agreeing on those
fields derive identical strings. -/
theorem C9_derived_names_deterministic (o1 o2 : Opt)
    (hloss : o1.loss = o2.loss) (hds : o1.dataset = o2.dataset) (hm : o1.model = o2.model)
    (hep : o1.epochs = o2.epochs) (hlr : o1.learning_rate = o2.learning_rate)
    (hd : o1.lr_decay_rate = o2.lr_decay_rate) (hwd : o1.weight_decay = o2.weight_decay)
    (ha : o1.alpha = o2.alpha) (hmm : o1.momentum = o2.momentum)
    (hb : o1.batch_size = o2.batch_size) (haug : o1.aug = o2.aug) (ht : o1.trial = o2.trial)
    (hres : o1.resume = o2.resume) :
    model_name o1 = model_name o2 ∧ save_folder o1 = save_folder o2 := by
  have h1 : model_name o1 = model_name o2 := by
    unfold model_name derived_model_name
    rw [hloss, hds, hm, hep, hlr, hd, hwd, ha, hmm, hb, haug, ht, hres]
  refine ⟨h1, ?_⟩
  unfold save_folder model_path
  rw [h1, hds]

/-- Witness for C9: two parses differing only in print_freq derive the
same model_name and save_folder. -/
theorem C9_derived_names_deterministic_witness :
    model_name w9a = model_name w9b ∧ save_folder w9a = save_folder w9b :=
  C9_derived_names_deterministic w9a w9b rfl rfl rfl rfl rfl rfl rfl rfl rfl rfl rfl rfl rfl

/-- Helper: the checkpoint write log reads the configuration only through
save_freq. -/
theorem run_all_saves_congr (o1 o2 : Opt) (hf : o1.save_freq = o2.save_freq)
    (folder : String) (valid : Nat → ℚ) :
    ∀ n, run_all_saves o1 folder valid n = run_all_saves o2 folder valid n := by
  intro n
  induction n with
  | zero => rfl
  | succ k ih =>
    simp only [run_all_saves]
    rw [ih]
    unfold epoch_end_saves
    rw [hf]

/-- C10: save_curr_freq is parsed but never read after parsing; two runs
whose configurations differ only in save_curr_freq have the same derived
names, the same sequence of checkpoint writes, and the same final best
tracking state, for identical metric sequences. -/
theorem C10_save_curr_freq_unused (o : Opt) (c : Nat) (valid : Nat → ℚ) (test : Nat → List ℚ) :
    program_run { o with save_curr_freq := c } valid test = program_run o valid test := by
  unfold program_run
  rw [run_all_saves_congr { o with save_curr_freq := c } o rfl]
  rfl

/-- C4: the two checkpoint paths persist different schemas. The periodic
events of an epoch do not depend on the best decision; a periodic event
carries epoch, model, optimizer and best_error while a best event carries
exactly epoch, model and best_error, omitting the optimizer state; and a
periodic event occurs exactly when the epoch is a multiple of save_freq. -/
theorem C4_checkpoint_schemas :
    (∀ (o : Opt) (folder : String) (epoch : Nat) (b : Bool),
      (epoch_end_saves o folder epoch b).filter (fun ev => ev.kind == SaveKind.periodic) =
        (epoch_end_saves o folder epoch false).filter (fun ev => ev.kind == SaveKind.periodic)) ∧
    (∀ (o : Opt) (folder : String) (epoch : Nat) (b : Bool) (ev : SaveEvent),
      ev ∈ epoch_end_saves o folder epoch b →
      (ev.kind = SaveKind.periodic →
        ev.keys = [CkptKey.epoch, CkptKey.model, CkptKey.optimizer, CkptKey.best_error]) ∧
      (ev.kind = SaveKind.best →
        ev.keys = [CkptKey.epoch, CkptKey.model, CkptKey.best_error] ∧
          CkptKey.optimizer ∉ ev.keys)) ∧
    (∀ (o : Opt) (folder : String) (epoch : Nat) (b : Bool),
      ((∃ ev ∈ epoch_end_saves o folder epoch b, ev.kind = SaveKind.periodic) ↔
        o.save_freq ∣ epoch)) := by
  have hbb : (SaveKind.best == SaveKind.periodic) = false := by decide
  have hpp : (SaveKind.periodic == SaveKind.periodic) = true := by decide
  have hcases : ∀ (o : Opt) (folder : String) (epoch : Nat) (b : Bool) (ev : SaveEvent),
      ev ∈ epoch_end_saves o folder epoch b →
      ev = { kind := SaveKind.periodic,
             path := folder ++ ("/ckpt_epoch_") ++ toString epoch ++ (".pth"),
             keys := periodic_ckpt_keys } ∨
      ev = { kind := SaveKind.best, path := folder ++ ("/best.pth"), keys := best_ckpt_keys } := by
    intro o folder epoch b ev hmem
    unfold epoch_end_saves at hmem
    rcases List.mem_append.mp hmem with h | h
    · left
      by_cases hp : epoch % o.save_freq = 0
      · rw [if_pos hp] at h
        simpa using h
      · rw [if_neg hp] at h
        simp at h
    · right
      cases b
      · simp at h
      · simpa using h
  refine ⟨?_, ?_, ?_⟩
  · intro o folder epoch b
    by_cases hp : epoch % o.save_freq = 0 <;> cases b <;>
      simp [epoch_end_saves, hp, List.filter_append, List.filter_cons, hbb, hpp]
  · intro o folder epoch b ev hmem
    rcases hcases o folder epoch b ev hmem with rfl | rfl
    · exact ⟨fun _ => rfl, fun hk => SaveKind.noConfusion hk⟩
    · exact ⟨fun hk => SaveKind.noConfusion hk,
        fun _ => ⟨rfl, show CkptKey.optimizer ∉ best_ckpt_keys by decide⟩⟩
  · intro o folder epoch b
    rw [Nat.dvd_iff_mod_eq_zero]
    constructor
    · rintro ⟨ev, hmem, hk⟩
      by_contra hp
      rcases hcases o folder epoch b ev hmem with rfl | rfl
      · unfold epoch_end_saves at hmem
        rw [if_neg hp] at hmem
        rcases List.mem_append.mp hmem with h | h
        · simp at h
        · cases b
          · simp at h
          · have := List.mem_singleton.mp h
            exact SaveKind.noConfusion (congrArg SaveEvent.kind this)
      · exact SaveKind.noConfusion hk
    · intro hp
      refine ⟨{ kind := SaveKind.periodic,
                path := folder ++ ("/ckpt_epoch_") ++ toString epoch ++ (".pth"),
                keys := periodic_ckpt_keys }, ?_, rfl⟩
      unfold epoch_end_saves
      rw [if_pos hp]
      exact List.mem_append.mpr (Or.inl (List.mem_singleton.mpr rfl))

/-- Witness for C4: concrete epoch 2 with save_freq 2, where both a
periodic and a best checkpoint are written. -/
theorem C4_checkpoint_schemas_witness :
    ((wPeriodicEv.kind = SaveKind.periodic →
        wPeriodicEv.keys = [CkptKey.epoch, CkptKey.model, CkptKey.optimizer, CkptKey.best_error]) ∧
      (wPeriodicEv.kind = SaveKind.best →
        wPeriodicEv.keys = [CkptKey.epoch, CkptKey.model, CkptKey.best_error] ∧
          CkptKey.optimizer ∉ wPeriodicEv.keys)) ∧
    ((∃ ev ∈ epoch_end_saves wSaveOpt ("f") 2 true, ev.kind = SaveKind.periodic) ↔
      wSaveOpt.save_freq ∣ 2) :=
  ⟨C4_checkpoint_schemas.2.1 wSaveOpt ("f") 2 true wPeriodicEv (by decide),
   C4_checkpoint_schemas.2.2 wSaveOpt ("f") 2 true⟩

/-- C5: with a nonempty resume path the checkpoint states under the model
and optimizer keys are handed to the load calls and the first executed
epoch of the loop is the stored epoch plus one; a failed deserialization
and a checkpoint lacking the model, optimizer or epoch key are fatal. -/
theorem C5_resume_semantics :
    (∀ (res : String) (ck : Ckpt) (m op : CkptVal) (e epochs : Nat),
      res.length ≠ 0 →
      lookupKey ck ("model") = some m →
      lookupKey ck ("optimizer") = some op →
      lookupKey ck ("epoch") = some (CkptVal.num e) →
      resume_setup res (some ck) =
        Except.ok { start_epoch := e + 1, loaded_model := some m, loaded_optimizer := some op } ∧
      (e + 1 ≤ epochs → (executed_epochs (e + 1) epochs).head? = some (e + 1))) ∧
    (∀ res : String, res.length ≠ 0 → isFatal (resume_setup res none) = true) ∧
    (∀ (res : String) (ck : Ckpt), res.length ≠ 0 →
      (lookupKey ck ("model")) = none ∨ (lookupKey ck ("optimizer")) = none ∨
        (lookupKey ck ("epoch")) = none →
      isFatal (resume_setup res (some ck)) = true) := by
  refine ⟨?_, ?_, ?_⟩
  · intro res ck m op e epochs hres hm hop he
    constructor
    · simp only [resume_setup, if_neg hres, hm, hop, he]
    · intro hle
      unfold executed_epochs
      have hk : epochs + 1 - (e + 1) = (epochs - (e + 1)) + 1 := by omega
      rw [hk]
      rfl
  · intro res hres
    simp [resume_setup, if_neg hres, isFatal]
  · intro res ck hres hd
    rcases hm : lookupKey ck ("model") with _ | m
    · simp [resume_setup, if_neg hres, hm, isFatal]
    rcases hop : lookupKey ck ("optimizer") with _ | op
    · simp [resume_setup, if_neg hres, hm, hop, isFatal]
    rcases he : lookupKey ck ("epoch") with _ | v
    · simp [resume_setup, if_neg hres, hm, hop, he, isFatal]
    rcases v with e | tag
    · rw [hm, hop, he] at hd
      rcases hd with hd | hd | hd <;> exact Option.noConfusion hd
    · simp [resume_setup, if_neg hres, hm, hop, he, isFatal]

/-- Witness for C5: resuming from a checkpoint that stores epoch 10 under a
400 epoch budget starts the loop at epoch 11. -/
theorem C5_resume_semantics_witness :
    resume_setup ("save/run/ckpt.pth") (some wCkpt) =
      Except.ok { start_epoch := 11, loaded_model := some (CkptVal.state ("M")),
                  loaded_optimizer := some (CkptVal.state ("O")) } ∧
    (10 + 1 ≤ 400 → (executed_epochs 11 400).head? = some 11) :=
  C5_resume_semantics.1 ("save/run/ckpt.pth") wCkpt (CkptVal.state ("M")) (CkptVal.state ("O"))
    10 400 (by decide) (by decide) (by decide) (by decide)

/-- Helper: the running best_error of the loop equals the minimum of the
1e10 baseline and all validation MAE values seen so far. -/
theorem run_epochs_best_error (valid : Nat → ℚ) (test : Nat → List ℚ) (folder : String) :
    ∀ n, (run_epochs valid test folder n).best_error = bestErrorAfter valid n := by
  intro n
  induction n with
  | zero => rfl
  | succ k ih =>
    simp only [run_epochs, epoch_step, bestErrorAfter]
    split <;> simp [ih]

/-- Helper: being below the running best after k epochs means being below
the baseline and below every validation MAE of epochs 1 to k. -/
theorem lt_bestErrorAfter_iff (valid : Nat → ℚ) (x : ℚ) :
    ∀ k, x < bestErrorAfter valid k ↔
      x < 10 ^ 10 ∧ ∀ j, 1 ≤ j → j ≤ k → x < valid j := by
  intro k
  induction k with
  | zero =>
    constructor
    · intro h
      exact ⟨h, fun j h1 h0 => absurd (Nat.le_trans h1 h0) (by omega)⟩
    · intro h
      exact h.1
  | succ k ih =>
    simp only [bestErrorAfter, lt_min_iff, ih]
    constructor
    · rintro ⟨hvk, hbase, hall⟩
      refine ⟨hbase, fun j h1 hj => ?_⟩
      rcases Nat.lt_or_ge j (k + 1) with hlt | hge
      · exact hall j h1 (by omega)
      · have hje : j = k + 1 := by omega
        rw [hje]
        exact hvk
    · rintro ⟨hbase, hall⟩
      exact ⟨hall (k + 1) (by omega) (Nat.le_refl _), hbase,
        fun j h1 hj => hall j h1 (by omega)⟩

/-- Helper: an epoch number is in the best save log exactly when its
validation MAE strictly improved the running best at that point. -/
theorem mem_best_saves_iff (valid : Nat → ℚ) (test : Nat → List ℚ) (folder : String) :
    ∀ n e, e ∈ ((run_epochs valid test folder n).best_saves.map Prod.fst) ↔
      (1 ≤ e ∧ e ≤ n ∧ valid e < bestErrorAfter valid (e - 1)) := by
  intro n
  induction n with
  | zero =>
    intro e
    simp only [run_epochs, init_loop_state, List.map_nil, List.not_mem_nil, false_iff, not_and]
    intro h1 h0
    exact absurd (Nat.le_trans h1 h0) (by omega)
  | succ k ih =>
    intro e
    simp only [run_epochs, epoch_step]
    rw [run_epochs_best_error]
    split
    · case isTrue himp =>
      simp only [List.map_append, List.mem_append, List.map_cons, List.map_nil,
        List.mem_singleton, List.mem_cons, List.not_mem_nil, or_false]
      rw [ih e]
      constructor
      · rintro (⟨h1, hk, himpr⟩ | rfl)
        · exact ⟨h1, by omega, himpr⟩
        · exact ⟨by omega, Nat.le_refl _, by simpa using himp⟩
      · rintro ⟨h1, hk1, himpr⟩
        rcases Nat.lt_or_ge e (k + 1) with hlt | hge
        · exact Or.inl ⟨h1, by omega, himpr⟩
        · right
          omega
    · case isFalse himp =>
      rw [ih e]
      constructor
      · rintro ⟨h1, hk, himpr⟩
        exact ⟨h1, by omega, himpr⟩
      · rintro ⟨h1, hk1, himpr⟩
        rcases Nat.lt_or_ge e (k + 1) with hlt | hge
        · exact ⟨h1, by omega, himpr⟩
        · have hek : e = k + 1 := by omega
          rw [hek] at himpr
          simp only [Nat.add_sub_cancel] at himpr
          exact absurd himpr himp

/-- Helper: every entry of the best save log targets best.pth in the run
folder. -/
theorem best_saves_path (valid : Nat → ℚ) (test : Nat → List ℚ) (folder : String) :
    ∀ n p, p ∈ (run_epochs valid test folder n).best_saves →
      p.2 = folder ++ ("/best.pth") := by
  intro n
  induction n with
  | zero =>
    intro p hp
    simp [run_epochs, init_loop_state] at hp
  | succ k ih =>
    intro p hp
    simp only [run_epochs, epoch_step] at hp
    split at hp
    · rcases List.mem_append.mp hp with h | h
      · exact ih p h
      · rw [List.mem_singleton.mp h]
    · exact ih p hp

/-- C1: a best checkpoint is written at an epoch iff its validation MAE is
strictly below the 1e10 baseline and strictly below every earlier epochs
validation MAE; every best save targets the single file best.pth of the
run folder, so the file is only ever overwritten; and on the MAE sequence
5, 3, 4, 2 the saves happen at epochs 1, 2 and 4 and not at epoch 3. -/
theorem C1_best_checkpoint_iff :
    (∀ (valid : Nat → ℚ) (test : Nat → List ℚ) (folder : String) (n e : Nat),
      e ∈ ((run_epochs valid test folder n).best_saves.map Prod.fst) ↔
        (1 ≤ e ∧ e ≤ n ∧ valid e < 10 ^ 10 ∧ ∀ j, 1 ≤ j → j < e → valid e < valid j)) ∧
    (∀ (valid : Nat → ℚ) (test : Nat → List ℚ) (folder : String) (n : Nat)
      (p : Nat × String), p ∈ (run_epochs valid test folder n).best_saves →
      p.2 = folder ++ ("/best.pth")) ∧
    ((run_epochs exValid exTest ("save") 4).best_saves.map Prod.fst = [1, 2, 4]) := by
  refine ⟨?_, best_saves_path, by decide⟩
  intro valid test folder n e
  rw [mem_best_saves_iff, lt_bestErrorAfter_iff]
  constructor
  · rintro ⟨h1, hn, hbase, hall⟩
    exact ⟨h1, hn, hbase, fun j hj1 hje => hall j hj1 (by omega)⟩
  · rintro ⟨h1, hn, hbase, hall⟩
    exact ⟨h1, hn, hbase, fun j hj1 hje => hall j hj1 (by omega)⟩

/-- Witness for C1: epoch 3 of the example sequence, where the iff resolves
to no save because 4 is not below the earlier value 3. -/
theorem C1_best_checkpoint_iff_witness :
    3 ∈ ((run_epochs exValid exTest ("save") 4).best_saves.map Prod.fst) ↔
      (1 ≤ 3 ∧ 3 ≤ 4 ∧ exValid 3 < 10 ^ 10 ∧ ∀ j, 1 ≤ j → j < 3 → exValid 3 < exValid j) :=
  C1_best_checkpoint_iff.1 exValid exTest ("save") 4 3

/-- C7: after any number of epochs, best_test equals the test metrics of
the most recent epoch whose validation MAE strictly improved the running
best, and the 1e10 sentinel vector while no epoch improved it; an epoch
that does not improve the best leaves best_test untouched. The embedded
loop never rereads the persisted best checkpoint. -/
theorem C7_best_test_snapshot :
    (∀ (valid : Nat → ℚ) (test : Nat → List ℚ) (folder : String) (n : Nat),
      (run_epochs valid test folder n).best_test =
        (lastImprovingUpTo valid n).elim init_best_test test) ∧
    (∀ (valid : Nat → ℚ) (test : Nat → List ℚ) (folder : String) (n : Nat),
      ¬ valid (n + 1) < bestErrorAfter valid n →
      (run_epochs valid test folder (n + 1)).best_test =
        (run_epochs valid test folder n).best_test) := by
  constructor
  · intro valid test folder n
    induction n with
    | zero => rfl
    | succ k ih =>
      simp only [run_epochs, epoch_step, lastImprovingUpTo]
      rw [run_epochs_best_error]
      by_cases himp : valid (k + 1) < bestErrorAfter valid k
      · rw [if_pos himp, if_pos himp]
        rfl
      · rw [if_neg himp, if_neg himp]
        exact ih
  · intro valid test folder n h
    simp only [run_epochs, epoch_step]
    rw [run_epochs_best_error, if_neg h]

/-- Witness for C7: epoch 3 of the example run does not improve the best
validation MAE, so best_test is unchanged there. -/
theorem C7_best_test_snapshot_witness :
    (run_epochs exValid exTest ("save") 3).best_test =
      (run_epochs exValid exTest ("save") 2).best_test :=
  C7_best_test_snapshot.2 exValid exTest ("save") 2 (by decide)

/-- Helper: the mean of a mapped list is invariant under permuting the
underlying list. -/
theorem qmean_map_perm {α : Type} {s t : List α} (h : List.Perm s t) (f : α → ℚ) :
    qmean (s.map f) = qmean (t.map f) := by
  unfold qmean
  rw [(h.map f).sum_eq, (h.map f).length_eq]

/-- Helper: average ranks are determined by element counts, hence invariant
under permuting the list. -/
theorem avgRank_map_perm {α : Type} {s t : List α} (h : List.Perm s t) (f : α → ℚ) :
    avgRank (s.map f) = avgRank (t.map f) := by
  funext x
  unfold avgRank
  rw [(h.map f).countP_eq (fun y => decide (y < x)), (h.map f).countP_eq (fun y => decide (y = x))]

/-- Helper: the covariance sum over two maps of one list as a single sum. -/
theorem covSum_map_eq {α : Type} (s : List α) (f g : α → ℚ) :
    covSum (s.map f) (s.map g) =
      (s.map (fun a => (f a - qmean (s.map f)) * (g a - qmean (s.map g)))).sum := by
  unfold covSum
  rw [List.zip_map', List.map_map]
  rfl

/-- Helper: the covariance sum is invariant under permuting the sample
list. -/
theorem covSum_map_perm {α : Type} {s t : List α} (h : List.Perm s t) (f g : α → ℚ) :
    covSum (s.map f) (s.map g) = covSum (t.map f) (t.map g) := by
  rw [covSum_map_eq, covSum_map_eq, qmean_map_perm h f, qmean_map_perm h g]
  exact List.Perm.sum_eq (h.map _)

/-- Helper: the squared deviation sum over a map of a list as a single
sum. -/
theorem sqDevSum_map_eq {α : Type} (s : List α) (f : α → ℚ) :
    sqDevSum (s.map f) = (s.map (fun a => (f a - qmean (s.map f)) ^ 2)).sum := by
  unfold sqDevSum
  rw [List.map_map]
  rfl

/-- Helper: the squared deviation sum is invariant under permuting the
sample list. -/
theorem sqDevSum_map_perm {α : Type} {s t : List α} (h : List.Perm s t) (f : α → ℚ) :
    sqDevSum (s.map f) = sqDevSum (t.map f) := by
  rw [sqDevSum_map_eq, sqDevSum_map_eq, qmean_map_perm h f]
  exact List.Perm.sum_eq (h.map _)

/-- Helper: Pearson correlation is invariant under permuting the sample
list. -/
theorem pearson_map_perm {α : Type} {s t : List α} (h : List.Perm s t) (f g : α → ℚ) :
    pearson (s.map f) (s.map g) = pearson (t.map f) (t.map g) := by
  unfold pearson
  rw [covSum_map_perm h f g, sqDevSum_map_perm h f, sqDevSum_map_perm h g]

/-- Helper: Spearman correlation is invariant under permuting the sample
list. -/
theorem spearman_map_perm {α : Type} {s t : List α} (h : List.Perm s t) (f g : α → ℚ) :
    spearman (s.map f) (s.map g) = spearman (t.map f) (t.map g) := by
  unfold spearman ranks
  simp only [List.map_map]
  rw [avgRank_map_perm h f, avgRank_map_perm h g]
  exact pearson_map_perm h _ _

/-- Helper: the coefficient of determination is invariant under permuting
the sample list. -/
theorem r2_map_perm {α : Type} {s t : List α} (h : List.Perm s t) (f g : α → ℚ) :
    r2_scoreq (s.map f) (s.map g) = r2_scoreq (t.map f) (t.map g) := by
  unfold r2_scoreq
  rw [List.zip_map', List.zip_map', sqDevSum_map_perm h f]
  have hnum : ((s.map fun a => (f a, g a)).map (fun p => (p.1 - p.2) ^ 2)).sum =
      ((t.map fun a => (f a, g a)).map (fun p => (p.1 - p.2) ^ 2)).sum :=
    List.Perm.sum_eq ((h.map _).map _)
  rw [hnum]

/-- Helper: all five statistics are invariant under permuting the sample
pair list. -/
theorem statsOfPairs_perm {P Q : List (ℚ × ℚ)} (h : List.Perm P Q) :
    statsOfPairs P = statsOfPairs Q := by
  unfold statsOfPairs
  have h1 := qmean_map_perm h (fun p => |p.1 - p.2|)
  have h2 := qmean_map_perm h (fun p => (p.1 - p.2) ^ 2)
  have h3 := pearson_map_perm h Prod.snd Prod.fst
  have h4 := spearman_map_perm h Prod.snd Prod.fst
  have h5 := r2_map_perm h Prod.snd Prod.fst
  rw [h1, h2, h3, h4, h5]

/-- Helper: validate factors through the concatenated sample pair list. -/
theorem validate_eq_statsOfPairs {Img F : Type} (model : Img → ℚ × F)
    (loader : List (List (Img × ℚ))) :
    validate model loader = statsOfPairs (pairsOf model loader) := by
  have hpred : (predBatches model loader).flatten = (pairsOf model loader).map Prod.fst := by
    simp [predBatches, pairsOf, List.map_flatten, List.map_map, Function.comp_def]
  have htruth : (truthBatches loader).flatten = (pairsOf model loader).map Prod.snd := by
    simp [truthBatches, pairsOf, List.map_flatten, List.map_map, Function.comp_def]
  unfold validate statsOfPairs
  rw [hpred, htruth, List.zip_map']
  simp [Prod.mk.eta]

/-- Helper: permuting the loader batches permutes the concatenated sample
pair list. -/
theorem pairsOf_perm {Img F : Type} (model : Img → ℚ × F)
    {l1 l2 : List (List (Img × ℚ))} (h : List.Perm l1 l2) :
    List.Perm (pairsOf model l1) (pairsOf model l2) :=
  (h.map _).flatten

/-- C6: for every model and loader, validate returns the five statistics in
the fixed order MAE, RMSE, Pearson, Spearman, R2, computed over the
concatenation of all batch predictions and labels, with MAE the mean of
the elementwise absolute differences and RMSE the square root of the mean
of the squared differences; in the embedding it is a pure function with no
persistence or state mutation. -/
theorem C6_validate_metrics {Img F : Type} (model : Img → ℚ × F)
    (loader : List (List (Img × ℚ))) :
    validate model loader =
      [ ((qmean (List.zipWith (fun a b => |a - b|)
            ((loader.flatten).map (fun s => (model s.1).1))
            ((loader.flatten).map Prod.snd)) : ℚ) : ℝ),
        Real.sqrt ((qmean (List.zipWith (fun a b => (a - b) ^ 2)
            ((loader.flatten).map (fun s => (model s.1).1))
            ((loader.flatten).map Prod.snd)) : ℚ) : ℝ),
        pearson ((loader.flatten).map Prod.snd) ((loader.flatten).map (fun s => (model s.1).1)),
        spearman ((loader.flatten).map Prod.snd) ((loader.flatten).map (fun s => (model s.1).1)),
        ((r2_scoreq ((loader.flatten).map Prod.snd)
            ((loader.flatten).map (fun s => (model s.1).1)) : ℚ) : ℝ) ] := by
  rw [validate_eq_statsOfPairs]
  have hpe : pairsOf model loader =
      (loader.flatten).map (fun s => ((model s.1).1, s.2)) := by
    simp [pairsOf, List.map_flatten]
  rw [hpe]
  unfold statsOfPairs
  have hz1 : List.zipWith (fun a b => |a - b|)
      ((loader.flatten).map (fun s => (model s.1).1)) ((loader.flatten).map Prod.snd) =
      (loader.flatten).map (fun s => |(model s.1).1 - s.2|) := by
    rw [List.zipWith_map, List.zipWith_same]
  have hz2 : List.zipWith (fun a b => (a - b) ^ 2)
      ((loader.flatten).map (fun s => (model s.1).1)) ((loader.flatten).map Prod.snd) =
      (loader.flatten).map (fun s => ((model s.1).1 - s.2) ^ 2) := by
    rw [List.zipWith_map, List.zipWith_same]
  rw [hz1, hz2]
  simp only [List.map_map]
  rfl

/-- C8: for a fixed model, validate returns identical metric values on any
permutation of the batch order of the split. -/
theorem C8_validate_batch_order_invariant {Img F : Type} (model : Img → ℚ × F)
    (l1 l2 : List (List (Img × ℚ))) (h : List.Perm l1 l2) :
    validate model l1 = validate model l2 := by
  rw [validate_eq_statsOfPairs, validate_eq_statsOfPairs]
  exact statsOfPairs_perm (pairsOf_perm model h)

/-- Witness for C8: swapping two concrete one-sample batches leaves the
validate output unchanged. -/
theorem C8_validate_batch_order_invariant_witness :
    List.Perm [wB1, wB2] [wB2, wB1] ∧
    validate wModel [wB1, wB2] = validate wModel [wB2, wB1] :=
  ⟨List.Perm.swap wB2 wB1 [],
   C8_validate_batch_order_invariant wModel [wB1, wB2] [wB2, wB1] (List.Perm.swap wB2 wB1 [])⟩
